import Mathlib

/-!
Shallow embedding of the GStreamer VR video sink (src/ext/vrsink/gstvrsink.c).

The sink's cross-thread frame hand-off is modelled as explicit state passing
over the `GstVRSink` record.  Buffers are opaque reference-counted handles,
modelled by natural-number identifiers; each state slot
(`input_buffer`, `next_buffer`, `stored_buffer0`, ...) holds at most one
buffer reference.  Side effects that matter to the claims (taking and
releasing the drawing lock, dropping a buffer reference, GL calls on the draw
path) are recorded in an event trace (`Ev`) emitted alongside the new state,
in the order the C code performs them.

External collaborators (GL context and window, the buffer pool, the
view-conversion library object) are not in src/ and are modelled only at
their interface boundary; each such definition carries a doc comment saying
what it stands for.  External failures (context creation, frame mapping,
conversion submission) are not modelled: the embedding follows the success
paths, and the C failure paths that matter to the claims (missing
negotiation, the terminate flag) are all decided by code that is in src/.
-/

namespace VRSink

/-- GStreamer multiview/stereo video mode, restricted to the values the sink
inspects: `GST_VIDEO_MULTIVIEW_MODE_{NONE,MONO,LEFT,RIGHT,FRAME_BY_FRAME,
SIDE_BY_SIDE,TOP_BOTTOM}`. -/
inductive MvMode where
  | noneMode
  | mono
  | left
  | right
  | frameByFrame
  | sideBySide
  | topBottom
deriving DecidableEq, Repr

/-- GstVideoRectangle: an x/y/w/h rectangle of gints. -/
structure GstVideoRectangle where
  x : Int
  y : Int
  w : Int
  h : Int
deriving DecidableEq, Repr

/-- Events emitted by the modelled operations, in program order:
drawing-lock acquire/release, dropping a buffer reference (`release`),
setting the window handle, and the GL-thread draw-path calls the temporal
claims are about. -/
inductive Ev where
  | lock
  | unlock
  | release (buf : Nat)
  | setWindowHandle (handle : Nat)
  | waitFence (sync : Nat)
  | bindTexture (tex : Nat)
  | drawElements
  | clientDraw (buf : Nat)
  | viewport (r : GstVideoRectangle)
  | windowDraw
deriving DecidableEq, Repr

/-- Modelled from the spec: the view-conversion collaborator
(`GstGLViewConvert`, gst-libs code of this repository not under src/).
Spec section 4.2: `feed` accumulates one or two frames per output cycle
depending on the pairing requirement (frame-by-frame modes need both eyes,
packed modes need one); `drain` yields the next ready output frame or `None`
if more input is needed; reconfiguration clears partially accumulated state.
Output frames are fresh buffers drawn from the sink's allocation counter. -/
structure ViewConvertState where
  in_mode : MvMode
  out_mode : MvMode
  pending : List Nat
  ready : List Nat
deriving DecidableEq, Repr

/-- Modelled from the spec: `gst_gl_view_convert_new` — a fresh converter with
no configured format and no accumulated frames. -/
def gst_gl_view_convert_new : ViewConvertState :=
  { in_mode := MvMode.noneMode, out_mode := MvMode.noneMode,
    pending := [], ready := [] }

/-- Modelled from the spec: `gst_gl_view_convert_set_format` configures the
converter's input/output modes and clears any partially accumulated state
(spec sections 4.2 and 7: partial state is discarded on reconfiguration). -/
def gst_gl_view_convert_set_format (cv : ViewConvertState)
    (inMode outMode : MvMode) : ViewConvertState :=
  { cv with in_mode := inMode, out_mode := outMode, pending := [], ready := [] }

/-- Modelled from the spec: `gst_gl_view_convert_submit_input_buffer` — feed
one input frame into the converter's accumulator (the converter takes
ownership of the submitted reference). -/
def gst_gl_view_convert_submit_input_buffer (cv : ViewConvertState)
    (buf : Nat) : ViewConvertState :=
  { cv with pending := cv.pending ++ [buf] }

/-- Modelled from the spec: `gst_gl_view_convert_get_output` — yield the next
ready output frame, or `none` if more input is needed.  A cycle needs both
eye frames when the input mode is frame-by-frame, one frame otherwise, and
produces two outputs when the output mode is frame-by-frame, one otherwise.
Fresh output buffer identifiers come from the allocation counter `fresh`. -/
def gst_gl_view_convert_get_output (cv : ViewConvertState) (fresh : Nat) :
    ViewConvertState × Option Nat × Nat :=
  match cv.ready with
  | b :: rest => ({ cv with ready := rest }, some b, fresh)
  | [] =>
    let req : Nat := if cv.in_mode = MvMode.frameByFrame then 2 else 1
    let outs : Nat := if cv.out_mode = MvMode.frameByFrame then 2 else 1
    if req ≤ cv.pending.length then
      let made := (List.range outs).map (fun i => fresh + i)
      ({ cv with pending := cv.pending.drop req, ready := made.drop 1 },
        made.head?, fresh + outs)
    else (cv, none, fresh)

/-- The sink's state: the fields of `struct _GstVRSink` (gstvrsink.h usage as
read by gstvrsink.c) that the modelled operations touch.  Buffer slots are
`Option Nat`; `fresh` is the allocation counter for buffers the sink itself
creates (sync-carrier buffers via `gst_buffer_new`, converter outputs).
`context` abstracts "a GL context is present"; `redisplay_shader` abstracts
"the redisplay shader has been built on the GL thread". -/
structure GstVRSink where
  window_id : Nat
  new_window_id : Nat
  context : Bool
  to_quit : Bool
  keepAspect : Bool
  par_n : Int
  par_d : Int
  redisplay_texture : Nat
  mview_output_mode : MvMode
  mview_output_flags : Nat
  output_mode_changed : Bool
  in_mode : MvMode
  in_flags : Nat
  in_width : Int
  in_height : Int
  in_par_n : Int
  in_par_d : Int
  out_mode : MvMode
  out_flags : Nat
  out_width : Int
  out_height : Int
  sink_width : Int
  sink_height : Int
  input_buffer : Option Nat
  input_buffer2 : Option Nat
  next_buffer : Option Nat
  next_buffer2 : Option Nat
  next_sync : Option Nat
  next_tex : Nat
  stored_buffer0 : Option Nat
  stored_buffer1 : Option Nat
  stored_sync : Option Nat
  convert_views : Option ViewConvertState
  caps_change : Bool
  update_viewport : Bool
  window_width : Int
  window_height : Int
  display_rect : GstVideoRectangle
  redisplay_shader : Bool
  fresh : Nat
deriving DecidableEq, Repr

/-- The state set up by `gst_vr_sink_init` plus the zero-filled GObject
allocation: no window, no context, defaults for the properties
(`keep-aspect-ratio` TRUE, multiview mode MONO, flags NONE), empty slots.
The allocation counter starts at 100 so model-created buffers are easy to
tell apart in witnesses. -/
def initState : GstVRSink :=
  { window_id := 0, new_window_id := 0, context := false, to_quit := false,
    keepAspect := true, par_n := 0, par_d := 1, redisplay_texture := 0,
    mview_output_mode := MvMode.mono, mview_output_flags := 0,
    output_mode_changed := false,
    in_mode := MvMode.mono, in_flags := 0, in_width := 0, in_height := 0,
    in_par_n := 0, in_par_d := 1,
    out_mode := MvMode.mono, out_flags := 0, out_width := 0, out_height := 0,
    sink_width := 0, sink_height := 0,
    input_buffer := none, input_buffer2 := none,
    next_buffer := none, next_buffer2 := none, next_sync := none,
    next_tex := 0,
    stored_buffer0 := none, stored_buffer1 := none, stored_sync := none,
    convert_views := none, caps_change := false, update_viewport := false,
    window_width := 0, window_height := 0,
    display_rect := ⟨0, 0, 0, 0⟩, redisplay_shader := false, fresh := 100 }

/-- The GL texture identifier a buffer resolves to on first GL-thread touch
(`gl_frame.data[0]` after `gst_video_frame_map`).  Texture names are opaque
and nonzero (the sink uses 0 as the "no texture" sentinel), so the model maps
buffer `b` to texture `b + 1`. -/
def texOf (b : Nat) : Nat := b + 1

/-- Modelled from the spec: the external helper `gst_video_sink_center_rect`
(GStreamer video library) used by `gst_vr_sink_do_resize`.  With scaling, it
computes the standard letterbox/pillarbox rectangle: the largest centered
rectangle with the source aspect ratio that fits the destination (spec
section 4.4).  The C helper compares the ratios through doubles and
truncates results to gint; the model compares by exact cross-multiplication
and uses integer division, which agrees on nonnegative sizes. -/
def gst_video_sink_center_rect (src dst : GstVideoRectangle)
    (scaling : Bool) : GstVideoRectangle :=
  if ¬scaling then
    let w := min src.w dst.w
    let h := min src.h dst.h
    ⟨dst.x + (dst.w - w) / 2, dst.y + (dst.h - h) / 2, w, h⟩
  else
    if src.w * dst.h > dst.w * src.h then
      let h := dst.w * src.h / src.w
      ⟨dst.x, dst.y + (dst.h - h) / 2, dst.w, h⟩
    else if src.w * dst.h < dst.w * src.h then
      let w := dst.h * src.w / src.h
      ⟨dst.x + (dst.w - w) / 2, dst.y, w, dst.h⟩
    else
      ⟨dst.x, dst.y, dst.w, dst.h⟩

/-- gst_vr_sink_do_resize (gstvrsink.c lines 1428-1479), called with the
drawing lock held.  It first drops the lock to emit the client-reshape
signal (whether a client handled the reshape is the external input
`do_reshape`), retakes it, clamps the window size to at least 1x1, and —
when no client handled it — recomputes `display_rect`: the centered
letterbox rectangle when `keep-aspect-ratio` is set, the full window
otherwise, marking the viewport dirty and flagging a mode change when the
rectangle size changed. -/
def gst_vr_sink_do_resize (s : GstVRSink) (width height : Int)
    (do_reshape : Bool) : GstVRSink × List Ev :=
  let width := max 1 width
  let height := max 1 height
  let s := { s with window_width := width, window_height := height }
  let s :=
    if ¬do_reshape then
      if s.keepAspect then
        let src : GstVideoRectangle := ⟨0, 0, s.sink_width, s.sink_height⟩
        let dst : GstVideoRectangle := ⟨0, 0, width, height⟩
        let result := gst_video_sink_center_rect src dst true
        { s with
          output_mode_changed := s.output_mode_changed ∨
            result.w ≠ s.display_rect.w ∨ result.h ≠ s.display_rect.h,
          display_rect := result,
          update_viewport := true }
      else
        { s with
          output_mode_changed := s.output_mode_changed ∨
            width ≠ s.display_rect.w ∨ height ≠ s.display_rect.h,
          display_rect := ⟨0, 0, width, height⟩,
          update_viewport := true }
    else s
  (s, [Ev.unlock, Ev.lock])

/-- GstFlowReturn values the sink produces. -/
inductive GstFlowReturn where
  | ok
  | error
  | notNegotiated
deriving DecidableEq, Repr

/-- Modelled from the spec: the external helper
`gst_video_calculate_display_ratio` (GStreamer video library).  The display
aspect ratio is video-size times video PAR over display PAR, reduced;
failure when a term is nonpositive. -/
def gst_video_calculate_display_ratio
    (video_width video_height vpar_n vpar_d dpar_n dpar_d : Int) :
    Option (Int × Int) :=
  let num := video_width * vpar_n * dpar_d
  let den := video_height * vpar_d * dpar_n
  if num ≤ 0 ∨ den ≤ 0 then none
  else
    let g : Int := Int.gcd num den
    some (num / g, den / g)

/-- configure_display_from_info (gstvrsink.c lines 834-894): compute the
negotiated sink width/height from the video dimensions and pixel aspect
ratios, preferring to keep the video height when it divides evenly.
`width`/`height`/`vpar_n`/`vpar_d` are the fields of the GstVideoInfo the
caller passes (the out_info at the call site). -/
def configure_display_from_info (s : GstVRSink)
    (width height vpar_n vpar_d : Int) : GstVRSink × Bool :=
  let par_n := if vpar_n = 0 then 1 else vpar_n
  let dpar :=
    if s.par_n ≠ 0 ∧ s.par_d ≠ 0 then (s.par_n, s.par_d) else ((1 : Int), (1 : Int))
  match gst_video_calculate_display_ratio width height par_n vpar_d
      dpar.1 dpar.2 with
  | none => (s, false)
  | some (num, den) =>
    if height % den = 0 then
      ({ s with sink_width := height * num / den, sink_height := height }, true)
    else if width % num = 0 then
      ({ s with sink_width := width, sink_height := width * den / num }, true)
    else
      ({ s with sink_width := height * num / den, sink_height := height }, true)

/-- update_output_format (gstvrsink.c lines 898-962), called with the drawing
lock held.  Copies `in_info` to `out_info`; when the input is genuinely
multiview and an output conversion is requested, switches `out_info` to the
requested mode and instantiates the view converter if missing, otherwise
releases any converter.  Then recomputes the sink dimensions, and — when a
converter is active — sizes the output to the display rectangle and
reconfigures the converter with the lock temporarily dropped.  Finally
clears `output_mode_changed` and flags `caps_change`.  (The converter-object
unref and the caps-object update are not buffer releases and emit no
events.) -/
def update_output_format (s : GstVRSink) : GstVRSink × List Ev × Bool :=
  let s := { s with out_mode := s.in_mode, out_flags := s.in_flags,
                    out_width := s.in_width, out_height := s.in_height }
  let s :=
    if (¬(s.in_mode = MvMode.noneMode ∨ s.in_mode = MvMode.mono ∨
          s.in_mode = MvMode.left ∨ s.in_mode = MvMode.right)) ∧
        s.mview_output_mode ≠ MvMode.noneMode then
      let s := { s with out_mode := s.mview_output_mode,
                        out_flags := s.mview_output_flags }
      if s.convert_views = none then
        { s with convert_views := some gst_gl_view_convert_new }
      else s
    else
      { s with convert_views := none }
  let (s, ret) :=
    configure_display_from_info s s.out_width s.out_height s.in_par_n s.in_par_d
  let (s, ev) :=
    match s.convert_views with
    | some cv =>
      let s := { s with out_width := max 1 s.display_rect.w,
                        out_height := max 1 s.display_rect.h }
      let cv := gst_gl_view_convert_set_format cv s.in_mode s.out_mode
      ({ s with convert_views := some cv }, [Ev.unlock, Ev.lock])
    | none => (s, ([] : List Ev))
  ({ s with output_mode_changed := false, caps_change := true }, ev, ret)

/-- The tail of prepare_next_buffer (gstvrsink.c lines 1060-1096) once the
outgoing buffer is known: map the frame (resolving its texture), create a
fresh sync-carrier buffer with a GL sync meta and set the sync point on the
producer timeline, retake the lock, swap the new buffer/sync into the `next`
slots, then drop the lock again before releasing the old references (the
deadlock-avoidance pattern the spec calls out), and retake it. -/
def pnb_finalize (s : GstVRSink) (nb : Nat) (nb2 : Option Nat) :
    GstVRSink × List Ev :=
  let ns := s.fresh
  let s := { s with fresh := s.fresh + 1 }
  let old_buffer := s.next_buffer
  let old_buffer2 := s.next_buffer2
  let old_sync := s.next_sync
  let s := { s with next_tex := texOf nb, next_buffer := some nb,
                    next_buffer2 := nb2, next_sync := some ns }
  let rels := (old_buffer.toList ++ old_buffer2.toList ++
               old_sync.toList).map Ev.release
  (s, [Ev.lock, Ev.unlock] ++ rels ++ [Ev.lock])

/-- The emit step shared by prepare_next_buffer's conversion and passthrough
paths: given the state and the (possibly absent) output buffer pair from the
conversion stage, either just retake the lock (not ready to paint yet) or
finalize the pair into the `next` slots via `pnb_finalize`. -/
def pnb_emit (conv : GstVRSink × Option Nat × Option Nat) :
    GstVRSink × List Ev × Bool :=
  match conv.2.1 with
  | none => (conv.1, [Ev.unlock, Ev.lock], true)
  | some nb =>
    let r := pnb_finalize conv.1 nb conv.2.2
    (r.1, [Ev.unlock] ++ r.2, true)

/-- prepare_next_buffer (gstvrsink.c lines 993-1101), called with the drawing
lock held; its trace is relative to that (depth one at entry and exit).
Returns early when there is no input, or when the input is frame-by-frame
stereo and the second eye buffer has not arrived yet.  Otherwise drops the
lock and either runs the buffers through the view converter (when one is
active and the in/out modes or flags differ) or passes the input buffer
through unchanged, then finalizes the result into the `next` slots.
External failures (conversion submission, frame mapping) are not modelled,
so the Bool result is always true; the C failure path maps to `false`. -/
def prepare_next_buffer (s : GstVRSink) : GstVRSink × List Ev × Bool :=
  match s.input_buffer with
  | none => (s, [], true)
  | some in_buf =>
    if s.in_mode = MvMode.frameByFrame ∧ s.input_buffer2 = none then
      (s, [], true)
    else
      let in_buf2 : Option Nat :=
        if s.in_mode = MvMode.frameByFrame then s.input_buffer2 else none
      let active : Option ViewConvertState :=
        if s.in_mode ≠ s.out_mode ∨ s.in_flags ≠ s.out_flags then
          s.convert_views
        else none
      let conv : GstVRSink × Option Nat × Option Nat :=
        match active with
        | some cv =>
          let cv := gst_gl_view_convert_submit_input_buffer cv in_buf
          let cv :=
            match in_buf2 with
            | some b2 => gst_gl_view_convert_submit_input_buffer cv b2
            | none => cv
          let r1 := gst_gl_view_convert_get_output cv s.fresh
          let r2 :=
            if s.out_mode = MvMode.frameByFrame then
              gst_gl_view_convert_get_output r1.1 r1.2.2
            else (r1.1, none, r1.2.2)
          ({ s with convert_views := some r2.1, fresh := r2.2.2 },
            r1.2.1, r2.2.1)
        | none => (s, some in_buf, none)
      pnb_emit conv

/-- The window-handle and callback setup path `_ensure_gl_setup`
(gstvrsink.c lines 473-579): when no GL context exists, create one (context
creation, callback registration and the window object are external and
assumed to succeed) and apply the externally supplied window handle when it
differs from the current one. -/
def _ensure_gl_setup (s : GstVRSink) : GstVRSink × List Ev :=
  if s.context then (s, [])
  else
    let s := { s with context := true }
    if s.window_id ≠ s.new_window_id then
      ({ s with window_id := s.new_window_id },
        [Ev.setWindowHandle s.new_window_id])
    else (s, [])

/-- gst_vr_sink_prepare (gstvrsink.c lines 1103-1161): reject unnegotiated
states, ensure the GL setup, then under the drawing lock store the incoming
buffer into the input slot (the second-eye slot when the input is
frame-by-frame and the buffer is not first-in-bundle), refresh the output
format if flagged, and run prepare_next_buffer; the replaced input reference
is dropped only after the lock is released.  Finally apply a changed window
handle.  `firstInBundle` models GST_VIDEO_BUFFER_FLAG_FIRST_IN_BUNDLE on the
incoming buffer. -/
def gst_vr_sink_prepare (s : GstVRSink) (buf : Nat) (firstInBundle : Bool) :
    GstVRSink × List Ev × GstFlowReturn :=
  if s.sink_width < 1 ∨ s.sink_height < 1 then
    (s, [], GstFlowReturn.notNegotiated)
  else
    let r0 := _ensure_gl_setup s
    let s := r0.1
    let t :=
      if s.in_mode = MvMode.frameByFrame ∧ firstInBundle = false then
        (s.input_buffer2, { s with input_buffer2 := some buf })
      else
        (s.input_buffer, { s with input_buffer := some buf })
    let old_input := t.1
    let s := t.2
    let r1 := if s.output_mode_changed then update_output_format s
              else (s, [], true)
    let s := r1.1
    let r2 := prepare_next_buffer s
    let s := r2.1
    if r2.2.2 = false then
      (s, r0.2 ++ [Ev.lock] ++ r1.2.1 ++ r2.2.1 ++ [Ev.unlock] ++
          old_input.toList.map Ev.release, GstFlowReturn.error)
    else
      let r3 :=
        if s.window_id ≠ s.new_window_id then
          ({ s with window_id := s.new_window_id },
            [Ev.setWindowHandle s.new_window_id])
        else (s, ([] : List Ev))
      (r3.1, r0.2 ++ [Ev.lock] ++ r1.2.1 ++ r2.2.1 ++ [Ev.unlock] ++
          old_input.toList.map Ev.release ++ r3.2, GstFlowReturn.ok)

/-- gst_vr_sink_on_resize (gstvrsink.c lines 1416-1425): under the drawing
lock, flag a mode change and run the resize computation. -/
def gst_vr_sink_on_resize (s : GstVRSink) (width height : Int)
    (do_reshape : Bool) : GstVRSink × List Ev :=
  let s := { s with output_mode_changed := true }
  let r := gst_vr_sink_do_resize s width height do_reshape
  (r.1, [Ev.lock] ++ r.2 ++ [Ev.unlock])

/-- gst_vr_sink_on_draw (gstvrsink.c lines 1481-1596), run on the GL thread
under the drawing lock.  Returns immediately when no redisplay texture is
available.  Otherwise: apply a pending resize after a caps change, apply a
dirty viewport, issue the GPU-timeline wait on the stored sync buffer's
fence (when the sync meta is present — sync buffers created by
prepare_next_buffer always carry it), clean the GL state (unbind), emit the
client-draw signal for the stored buffer(s) (`clientDrawHandled` is the
clients' combined return), and — when no client handled the draw — bind the
redisplay texture and draw the textured quad. -/
def gst_vr_sink_on_draw (s : GstVRSink)
    (clientReshape clientDrawHandled : Bool) : GstVRSink × List Ev :=
  if s.redisplay_texture = 0 then (s, [Ev.lock, Ev.unlock])
  else
    let r1 :=
      if s.caps_change ∧ 0 < s.window_width ∧ 0 < s.window_height then
        let r := gst_vr_sink_do_resize s s.window_width s.window_height
          clientReshape
        ({ r.1 with caps_change := false }, r.2)
      else (s, ([] : List Ev))
    let s := r1.1
    let r2 :=
      if s.update_viewport = true then
        ({ s with update_viewport := false }, [Ev.viewport s.display_rect])
      else (s, ([] : List Ev))
    let s := r2.1
    let evWait := s.stored_sync.toList.map Ev.waitFence
    let evDefault :=
      if clientDrawHandled = false then
        [Ev.bindTexture s.redisplay_texture, Ev.drawElements]
      else []
    (s, [Ev.lock] ++ r1.2 ++ r2.2 ++ evWait ++ [Ev.bindTexture 0] ++
        [Ev.clientDraw (s.stored_buffer0.getD 0)] ++
        (s.stored_buffer1.toList.map Ev.clientDraw) ++ evDefault ++
        [Ev.unlock])

/-- gst_vr_sink_on_close (gstvrsink.c lines 1598-1617): record the context
error, disconnect the key/mouse handlers (not modelled fields) and set the
atomic terminate flag. -/
def gst_vr_sink_on_close (s : GstVRSink) : GstVRSink :=
  { s with to_quit := true }

/-- gst_vr_sink_redisplay (gstvrsink.c lines 1619-1694).  When the window is
running: build the redisplay shader on the GL thread if missing (`initOk` is
the external outcome; the C also skips this when a bin client-draw handler
plus external context are present), then under the drawing lock recreate the
output after a mode/size change, and — when a `next` buffer exists — promote
it: publish its texture as `redisplay_texture`, take new references into the
`stored` slots, drop the lock, release the old stored references, and
trigger an asynchronous window draw.  With no `next` buffer the stored
content is left as is and the call succeeds (expose-only redraw).  The
result is whether the window is still alive. -/
def gst_vr_sink_redisplay (s : GstVRSink) (windowRunning initOk : Bool) :
    GstVRSink × List Ev × Bool :=
  if windowRunning then
    let s := if s.redisplay_shader = false then
               { s with redisplay_shader := initOk }
             else s
    if s.redisplay_shader = false then (s, [], false)
    else
      let r1 :=
        if s.output_mode_changed = true ∧ s.input_buffer ≠ none then
          let ra := update_output_format s
          let rb := prepare_next_buffer ra.1
          (rb.1, ra.2.1 ++ rb.2.1)
        else (s, ([] : List Ev))
      let s := r1.1
      match s.next_buffer with
      | none => (s, [Ev.lock] ++ r1.2 ++ [Ev.unlock], true)
      | some nb =>
        let old0 := s.stored_buffer0
        let old1 := s.stored_buffer1
        let oldS := s.stored_sync
        let s := { s with redisplay_texture := s.next_tex,
                          stored_buffer0 := some nb,
                          stored_buffer1 := s.next_buffer2,
                          stored_sync := s.next_sync }
        let rels := (old0.toList ++ old1.toList ++ oldS.toList).map Ev.release
        (s, [Ev.lock] ++ r1.2 ++ [Ev.unlock] ++ rels ++ [Ev.windowDraw], true)
  else (s, [], false)

/-- gst_vr_sink_show_frame (gstvrsink.c lines 1163-1198): ask the window to
redraw; a dead window is a fatal resource error, and the atomic terminate
flag is polled once per cycle after the redisplay, turning into a fatal
resource error as well. -/
def gst_vr_sink_show_frame (s : GstVRSink) (windowRunning initOk : Bool) :
    GstVRSink × List Ev × GstFlowReturn :=
  let r := gst_vr_sink_redisplay s windowRunning initOk
  if r.2.2 = false then (r.1, r.2.1, GstFlowReturn.error)
  else if r.1.to_quit then (r.1, r.2.1, GstFlowReturn.error)
  else (r.1, r.2.1, GstFlowReturn.ok)

/-- The GST_QUERY_DRAIN branch of gst_vr_sink_query (gstvrsink.c lines
625-647): under the drawing lock invalidate the redisplay texture and empty
the stored buffer slots (the stored sync is kept), then after unlocking drop
the taken references and clear the input and next slots. -/
def gst_vr_sink_query_drain (s : GstVRSink) : GstVRSink × List Ev :=
  let b0 := s.stored_buffer0
  let b1 := s.stored_buffer1
  let s := { s with redisplay_texture := 0,
                    stored_buffer0 := none, stored_buffer1 := none }
  let relStored := (b0.toList ++ b1.toList).map Ev.release
  let relRest := (s.input_buffer.toList ++ s.input_buffer2.toList ++
                  s.next_buffer.toList ++ s.next_buffer2.toList ++
                  s.next_sync.toList).map Ev.release
  let s := { s with input_buffer := none, input_buffer2 := none,
                    next_buffer := none, next_buffer2 := none,
                    next_sync := none }
  (s, [Ev.lock, Ev.unlock] ++ relStored ++ relRest)

/-- The state transitions of gst_vr_sink_change_state modelled here. -/
inductive StateChange where
  | readyToPaused
  | pausedToReady
deriving DecidableEq, Repr

/-- gst_vr_sink_change_state (gstvrsink.c lines 668-786), for the two
transitions the claims are about.  Ready-to-Paused ensures the GL setup and
arms the terminate flag to false.  Paused-to-Ready tears down: under the
drawing lock invalidate the redisplay texture, empty the stored buffer
slots, and unref the stored sync buffer (the C drops this reference while
the lock is still held, lines 720-722); after unlocking drop the stored
buffer references, release the converter, clear the input and next slots,
reset `window_id` to 0 (but not `new_window_id`, line 737), reset the sink
size to 1x1, and run the GL-thread cleanup synchronously before releasing
the context. -/
def gst_vr_sink_change_state (s : GstVRSink) (t : StateChange) :
    GstVRSink × List Ev :=
  match t with
  | StateChange.readyToPaused =>
    let r := _ensure_gl_setup s
    ({ r.1 with to_quit := false }, r.2)
  | StateChange.pausedToReady =>
    let b0 := s.stored_buffer0
    let b1 := s.stored_buffer1
    let evSync := s.stored_sync.toList.map Ev.release
    let s := { s with redisplay_texture := 0,
                      stored_buffer0 := none, stored_buffer1 := none,
                      stored_sync := none }
    let relStored := (b0.toList ++ b1.toList).map Ev.release
    let relRest := (s.input_buffer.toList ++ s.input_buffer2.toList ++
                    s.next_buffer.toList ++ s.next_buffer2.toList ++
                    s.next_sync.toList).map Ev.release
    let s := { s with convert_views := none,
                      input_buffer := none, input_buffer2 := none,
                      next_buffer := none, next_buffer2 := none,
                      next_sync := none,
                      window_id := 0,
                      sink_width := 1, sink_height := 1 }
    let s := if s.context then
               { s with redisplay_shader := false, context := false }
             else s
    (s, [Ev.lock] ++ evSync ++ [Ev.unlock] ++ relStored ++ relRest)

/-- Lock depth after processing a trace, starting from `d` (drawing-lock
acquisitions minus releases, truncated at zero). -/
def lockDepth : List Ev → Nat → Nat
  | [], d => d
  | Ev.lock :: t, d => lockDepth t (d + 1)
  | Ev.unlock :: t, d => lockDepth t (d - 1)
  | _ :: t, d => lockDepth t d

/-- The buffer references a trace drops while the drawing lock is held
(lock depth positive), starting from depth `d`. -/
def releasesUnderLock : List Ev → Nat → List Nat
  | [], _ => []
  | Ev.lock :: t, d => releasesUnderLock t (d + 1)
  | Ev.unlock :: t, d => releasesUnderLock t (d - 1)
  | Ev.release b :: t, d =>
      (if 0 < d then [b] else []) ++ releasesUnderLock t d
  | _ :: t, d => releasesUnderLock t d

/-- A sink configuration in the plain mono passthrough regime: mono input,
no view converter, no pending output-mode change, and successfully
negotiated dimensions.  This is the regime every prepare call preserves. -/
abbrev monoPassthru (s : GstVRSink) : Prop :=
  s.in_mode = MvMode.mono ∧ s.convert_views = none ∧
    s.output_mode_changed = false ∧ 1 ≤ s.sink_width ∧ 1 ≤ s.sink_height

/-- Fold a sequence of prepare (submit) calls over the sink state, with no
intervening promotion. -/
def prepareSeq (s : GstVRSink) (bs : List Nat) : GstVRSink :=
  bs.foldl (fun st b => (gst_vr_sink_prepare st b true).1) s

/-- Whether a draw-path event samples a texture: the textured-quad draw
call, or binding a nonzero texture for sampling (binding 0 is the unbind
that cleans the GL state). -/
def isSample : Ev → Bool
  | Ev.drawElements => true
  | Ev.bindTexture t => decide (t ≠ 0)
  | _ => false

/-- Scan a trace in program order: `true` iff no texture-sampling event
occurs before the GPU-timeline wait on fence `k` (events after the wait are
unconstrained, and a trace with no sample at all passes). -/
def scanNoSample (k : Nat) : List Ev → Bool
  | [] => true
  | e :: t =>
    if e = Ev.waitFence k then true
    else if isSample e then false
    else scanNoSample k t

theorem lockDepth_append (a b : List Ev) (d : Nat) :
    lockDepth (a ++ b) d = lockDepth b (lockDepth a d) := by
  induction a generalizing d with
  | nil => rfl
  | cons e t ih => cases e <;> simp [lockDepth, ih]

theorem releasesUnderLock_append (a b : List Ev) (d : Nat) :
    releasesUnderLock (a ++ b) d =
      releasesUnderLock a d ++ releasesUnderLock b (lockDepth a d) := by
  induction a generalizing d with
  | nil => rfl
  | cons e t ih => cases e <;> simp [releasesUnderLock, lockDepth, ih]

theorem releasesUnderLock_map_release (l : List Nat) (d : Nat) :
    releasesUnderLock (l.map Ev.release) d = if 0 < d then l else [] := by
  induction l with
  | nil => simp [releasesUnderLock]
  | cons x t ih =>
    by_cases h : 0 < d <;> simp [releasesUnderLock, ih, h]

theorem lockDepth_map_release (l : List Nat) (d : Nat) :
    lockDepth (l.map Ev.release) d = d := by
  induction l with
  | nil => rfl
  | cons x t ih => simp [lockDepth, ih]

theorem pnb_finalize_trace (s : GstVRSink) (nb : Nat) (nb2 : Option Nat) :
    releasesUnderLock (pnb_finalize s nb nb2).2 0 = [] ∧
      lockDepth (pnb_finalize s nb nb2).2 0 = 1 := by
  unfold pnb_finalize
  simp [releasesUnderLock, lockDepth, releasesUnderLock_append,
    lockDepth_append, releasesUnderLock_map_release, lockDepth_map_release]

theorem pnb_emit_trace (conv : GstVRSink × Option Nat × Option Nat) :
    releasesUnderLock (pnb_emit conv).2.1 1 = [] ∧
      lockDepth (pnb_emit conv).2.1 1 = 1 := by
  obtain ⟨s, out1, out2⟩ := conv
  cases out1 <;>
    simp [pnb_emit, releasesUnderLock, lockDepth, releasesUnderLock_append,
      lockDepth_append, releasesUnderLock_map_release, lockDepth_map_release,
      pnb_finalize_trace]

theorem prepare_next_buffer_trace (s : GstVRSink) :
    releasesUnderLock (prepare_next_buffer s).2.1 1 = [] ∧
      lockDepth (prepare_next_buffer s).2.1 1 = 1 := by
  unfold prepare_next_buffer
  (repeat' split) <;>
    simp [releasesUnderLock, lockDepth, releasesUnderLock_append,
      lockDepth_append, releasesUnderLock_map_release, lockDepth_map_release,
      pnb_emit_trace]

theorem update_output_format_trace (s : GstVRSink) :
    releasesUnderLock (update_output_format s).2.1 1 = [] ∧
      lockDepth (update_output_format s).2.1 1 = 1 := by
  simp only [update_output_format]
  repeat' split
  all_goals simp [releasesUnderLock, lockDepth]

theorem ensure_gl_setup_trace (s : GstVRSink) (d : Nat) :
    releasesUnderLock (_ensure_gl_setup s).2 d = [] ∧
      lockDepth (_ensure_gl_setup s).2 d = d := by
  simp only [_ensure_gl_setup]
  repeat' split
  all_goals simp [releasesUnderLock, lockDepth]

/-- Claim C1, counterexample.  The claim states that in the Paused-to-Ready
teardown (among the listed operations) no buffer reference is dropped while
the drawing lock is held.  At a state whose stored sync buffer is present
(here buffer 7), the teardown's trace drops that reference at lock depth
one: gstvrsink.c lines 720-722 unref the stored sync before the unlock at
line 724.  So the claim as stated is false. -/
theorem C1_counterexample :
    releasesUnderLock
        (gst_vr_sink_change_state { initState with stored_sync := some 7 }
          StateChange.pausedToReady).2 0 ≠ [] := by
  decide

/-- Claim C1 (amended): for the submit/prepare path (including the
next-buffer replacement in prepare_next_buffer), the promotion in
redisplay, and the drain query, no buffer reference is dropped while the
drawing lock is held — the lock is always released before old references
are dropped.  In the Paused-to-Ready teardown this holds for every buffer
reference except the stored sync buffer, which the code unrefs while the
lock is still held (it is a sink-created sync carrier, never a pool
buffer). -/
theorem C1_release_outside_lock :
    (∀ (s : GstVRSink) (buf : Nat) (fib : Bool),
        releasesUnderLock (gst_vr_sink_prepare s buf fib).2.1 0 = []) ∧
    (∀ (s : GstVRSink) (wr ini : Bool),
        releasesUnderLock (gst_vr_sink_redisplay s wr ini).2.1 0 = []) ∧
    (∀ (s : GstVRSink),
        releasesUnderLock (gst_vr_sink_query_drain s).2 0 = []) ∧
    (∀ (s : GstVRSink),
        releasesUnderLock
            (gst_vr_sink_change_state s StateChange.pausedToReady).2 0 =
          s.stored_sync.toList) := by
  refine ⟨?_, ?_, ?_, ?_⟩
  · intro s buf fib
    simp only [gst_vr_sink_prepare]
    repeat' split
    all_goals
      simp [releasesUnderLock, lockDepth, releasesUnderLock_append,
        lockDepth_append, releasesUnderLock_map_release,
        lockDepth_map_release, prepare_next_buffer_trace,
        update_output_format_trace, ensure_gl_setup_trace]
  · intro s wr ini
    simp only [gst_vr_sink_redisplay]
    repeat' split
    all_goals
      simp [releasesUnderLock, lockDepth, releasesUnderLock_append,
        lockDepth_append, releasesUnderLock_map_release,
        lockDepth_map_release, prepare_next_buffer_trace,
        update_output_format_trace]
  · intro s
    simp only [gst_vr_sink_query_drain]
    simp [releasesUnderLock, lockDepth, releasesUnderLock_append,
      lockDepth_append, releasesUnderLock_map_release, lockDepth_map_release]
  · intro s
    simp only [gst_vr_sink_change_state]
    simp [releasesUnderLock, lockDepth, releasesUnderLock_append,
      lockDepth_append, releasesUnderLock_map_release, lockDepth_map_release]

theorem configure_display_from_info_to_quit (s : GstVRSink)
    (w h pn pd : Int) :
    (configure_display_from_info s w h pn pd).1.to_quit = s.to_quit := by
  simp only [configure_display_from_info]
  repeat' split
  all_goals simp

theorem update_output_format_to_quit (s : GstVRSink) :
    (update_output_format s).1.to_quit = s.to_quit := by
  simp only [update_output_format]
  repeat' split
  all_goals simp [configure_display_from_info_to_quit]

theorem pnb_emit_to_quit (conv : GstVRSink × Option Nat × Option Nat) :
    (pnb_emit conv).1.to_quit = conv.1.to_quit := by
  obtain ⟨s, out1, out2⟩ := conv
  cases out1 <;> simp [pnb_emit, pnb_finalize]

theorem prepare_next_buffer_to_quit (s : GstVRSink) :
    (prepare_next_buffer s).1.to_quit = s.to_quit := by
  simp only [prepare_next_buffer]
  repeat' split
  all_goals simp [pnb_emit_to_quit]

theorem redisplay_to_quit (s : GstVRSink) (wr ini : Bool) :
    (gst_vr_sink_redisplay s wr ini).1.to_quit = s.to_quit := by
  simp only [gst_vr_sink_redisplay]
  repeat' split
  all_goals
    simp [prepare_next_buffer_to_quit, update_output_format_to_quit]

/-- Claim C4, counterexample.  The claim states that after the close
callback fires, the next prepare call returns GST_FLOW_ERROR.  At a
negotiated state with a context, prepare after the close callback still
returns GST_FLOW_OK: gst_vr_sink_prepare (gstvrsink.c lines 1103-1161)
never reads the terminate flag; the poll is in gst_vr_sink_show_frame (line
1183). -/
theorem C4_counterexample :
    (gst_vr_sink_prepare
        (gst_vr_sink_on_close
          { initState with sink_width := 100, sink_height := 100,
                           context := true }) 3 true).2.2 ≠
      GstFlowReturn.error := by
  decide

/-- Claim C4 (amended): after the close callback sets the atomic terminate
flag, the next show_frame (render) call on the producer thread returns
GST_FLOW_ERROR — the flag is polled once per show_frame cycle, after the
redisplay attempt; prepare itself does not poll the flag. -/
theorem C4_show_frame_errors_after_close (s : GstVRSink) (wr ini : Bool) :
    (gst_vr_sink_show_frame (gst_vr_sink_on_close s) wr ini).2.2 =
      GstFlowReturn.error := by
  have hq : (gst_vr_sink_redisplay (gst_vr_sink_on_close s) wr ini).1.to_quit
      = true := by
    rw [redisplay_to_quit]; rfl
  simp only [gst_vr_sink_show_frame]
  split
  · rfl
  · simp [hq]

/-- Claim C9: a prepare call before a successful caps negotiation (sink
width or height below 1) returns GST_FLOW_NOT_NEGOTIATED and leaves the
whole state — in particular the input, next and stored slots — unchanged
(gstvrsink.c lines 1114-1116 return before touching anything). -/
theorem C9_prepare_not_negotiated (s : GstVRSink) (buf : Nat) (fib : Bool)
    (h : s.sink_width < 1 ∨ s.sink_height < 1) :
    gst_vr_sink_prepare s buf fib = (s, [], GstFlowReturn.notNegotiated) := by
  unfold gst_vr_sink_prepare
  rw [if_pos h]

/-- Claim C9, witness: the fresh sink state is unnegotiated (0 < 1) and
prepare leaves it unchanged with GST_FLOW_NOT_NEGOTIATED. -/
theorem C9_witness :
    gst_vr_sink_prepare initState 3 true =
      (initState, [], GstFlowReturn.notNegotiated) :=
  C9_prepare_not_negotiated initState 3 true (by decide)

/-- Claim C10: the Paused-to-Ready teardown resets `window_id` to 0 but
leaves `new_window_id` unchanged (gstvrsink.c lines 736-737), so a nonzero
externally supplied handle survives the state cycle, and the next
Ready-to-Paused setup re-applies it to the window because `window_id`
differs from `new_window_id` (lines 522-526). -/
theorem C10_window_handle_survives_teardown (s : GstVRSink)
    (h : s.new_window_id ≠ 0) :
    (gst_vr_sink_change_state s StateChange.pausedToReady).1.window_id = 0 ∧
    (gst_vr_sink_change_state s StateChange.pausedToReady).1.new_window_id =
      s.new_window_id ∧
    (gst_vr_sink_change_state
        (gst_vr_sink_change_state s StateChange.pausedToReady).1
        StateChange.readyToPaused).1.window_id = s.new_window_id ∧
    Ev.setWindowHandle s.new_window_id ∈
      (gst_vr_sink_change_state
        (gst_vr_sink_change_state s StateChange.pausedToReady).1
        StateChange.readyToPaused).2 := by
  by_cases hc : s.context = true <;>
    simp [gst_vr_sink_change_state, _ensure_gl_setup, hc, Ne.symm h]

/-- Claim C10, witness: with an externally supplied handle 42 and a live
context, teardown keeps the handle pending and the next setup applies it. -/
theorem C10_witness :
    (42 : Nat) ≠ 0 ∧
    ((gst_vr_sink_change_state
        { initState with new_window_id := 42, context := true }
        StateChange.pausedToReady).1.window_id = 0 ∧
     (gst_vr_sink_change_state
        { initState with new_window_id := 42, context := true }
        StateChange.pausedToReady).1.new_window_id = 42 ∧
     (gst_vr_sink_change_state
        (gst_vr_sink_change_state
          { initState with new_window_id := 42, context := true }
          StateChange.pausedToReady).1
        StateChange.readyToPaused).1.window_id = 42 ∧
     Ev.setWindowHandle 42 ∈
       (gst_vr_sink_change_state
         (gst_vr_sink_change_state
           { initState with new_window_id := 42, context := true }
           StateChange.pausedToReady).1
         StateChange.readyToPaused).2) :=
  ⟨by decide,
    C10_window_handle_survives_teardown
      { initState with new_window_id := 42, context := true } (by decide)⟩

/-- Claim C6: a redisplay invocation on a running window with a built
shader, an empty `next` slot and no pending output-mode recreation leaves
the state — in particular the stored buffers, stored sync and redisplay
texture — entirely unchanged and reports success, so an expose-only redraw
with no new frame redraws whatever is currently stored (gstvrsink.c lines
1660-1664). -/
theorem C6_redisplay_empty_next_keeps_stored (s : GstVRSink) (ini : Bool)
    (hnext : s.next_buffer = none)
    (hsh : s.redisplay_shader = true)
    (hrec : ¬(s.output_mode_changed = true ∧ s.input_buffer ≠ none)) :
    gst_vr_sink_redisplay s true ini = (s, [Ev.lock, Ev.unlock], true) := by
  simp only [gst_vr_sink_redisplay]
  simp [hsh, hrec, hnext]

/-- Claim C6, witness: a paused sink holding stored frame 9 with sync 8 and
texture 5 but no fresh `next` frame is left unchanged by the redisplay and
reports success. -/
theorem C6_witness :
    gst_vr_sink_redisplay
        { initState with redisplay_shader := true, redisplay_texture := 5,
                         stored_buffer0 := some 9, stored_sync := some 8 }
        true false =
      ({ initState with redisplay_shader := true, redisplay_texture := 5,
                        stored_buffer0 := some 9, stored_sync := some 8 },
        [Ev.lock, Ev.unlock], true) :=
  C6_redisplay_empty_next_keeps_stored _ false (by decide) (by decide)
    (by decide)

theorem center_rect_scaling_bounds (src dst : GstVideoRectangle)
    (hsw : 0 < src.w) (hsh : 0 < src.h) :
    (gst_video_sink_center_rect src dst true).w ≤ dst.w ∧
    (gst_video_sink_center_rect src dst true).h ≤ dst.h ∧
    (gst_video_sink_center_rect src dst true).x =
      dst.x + (dst.w - (gst_video_sink_center_rect src dst true).w) / 2 ∧
    (gst_video_sink_center_rect src dst true).y =
      dst.y + (dst.h - (gst_video_sink_center_rect src dst true).h) / 2 := by
  unfold gst_video_sink_center_rect
  by_cases h1 : src.w * dst.h > dst.w * src.h
  · have hh : dst.w * src.h / src.w ≤ dst.h := by
      calc dst.w * src.h / src.w ≤ src.w * dst.h / src.w :=
            Int.ediv_le_ediv hsw (le_of_lt h1)
        _ = dst.h := Int.mul_ediv_cancel_left _ (ne_of_gt hsw)
    simp [h1, hh]
  · by_cases h2 : src.w * dst.h < dst.w * src.h
    · have hw : dst.h * src.w / src.h ≤ dst.w := by
        calc dst.h * src.w / src.h ≤ src.h * dst.w / src.h := by
              refine Int.ediv_le_ediv hsh ?_
              calc dst.h * src.w = src.w * dst.h := by ring
                _ ≤ dst.w * src.h := le_of_lt h2
                _ = src.h * dst.w := by ring
          _ = dst.w := Int.mul_ediv_cancel_left _ (ne_of_gt hsh)
      simp [h1, h2, hw]
    · simp [h1, h2]

/-- Claim C7: with `keep-aspect-ratio` set, the resize computation yields
the largest centered source-aspect rectangle that fits the window — on
source 1920x1080 with pixel aspect 1/1 (negotiated through
configure_display_from_info) in an 800x600 window it is exactly
x=0, y=75, w=800, h=450, and in general (for positive source sizes) the
rectangle fits the clamped window and is centered on both axes; with the
flag unset, the display rect is the full (clamped) window. -/
theorem C7_resize_display_rect :
    ((gst_vr_sink_do_resize
        (configure_display_from_info { initState with keepAspect := true }
          1920 1080 1 1).1 800 600 false).1.display_rect =
      ⟨0, 75, 800, 450⟩) ∧
    (∀ (s : GstVRSink) (w h : Int), s.keepAspect = false →
      (gst_vr_sink_do_resize s w h false).1.display_rect =
        ⟨0, 0, max 1 w, max 1 h⟩) ∧
    (∀ (s : GstVRSink) (w h : Int), s.keepAspect = true →
      0 < s.sink_width → 0 < s.sink_height →
      ((gst_vr_sink_do_resize s w h false).1.display_rect.w ≤ max 1 w ∧
       (gst_vr_sink_do_resize s w h false).1.display_rect.h ≤ max 1 h ∧
       (gst_vr_sink_do_resize s w h false).1.display_rect.x =
         (max 1 w - (gst_vr_sink_do_resize s w h false).1.display_rect.w) / 2 ∧
       (gst_vr_sink_do_resize s w h false).1.display_rect.y =
         (max 1 h - (gst_vr_sink_do_resize s w h false).1.display_rect.h) / 2)) := by
  refine ⟨by decide, ?_, ?_⟩
  · intro s w h hka
    simp [gst_vr_sink_do_resize, hka]
  · intro s w h hka hsw hsh
    have hb := center_rect_scaling_bounds ⟨0, 0, s.sink_width, s.sink_height⟩
      ⟨0, 0, max 1 w, max 1 h⟩ hsw hsh
    simpa [gst_vr_sink_do_resize, hka] using hb

/-- Claim C7, witness: at keep-aspect false the 800x600 window is used in
full, and at keep-aspect true with a 1920x1080 source the rectangle fits
and is centered. -/
theorem C7_witness :
    ((gst_vr_sink_do_resize { initState with keepAspect := false } 800 600
        false).1.display_rect = ⟨0, 0, max 1 800, max 1 600⟩) ∧
    ((gst_vr_sink_do_resize
        { initState with sink_width := 1920, sink_height := 1080 } 800 600
        false).1.display_rect.w ≤ max 1 800 ∧
     (gst_vr_sink_do_resize
        { initState with sink_width := 1920, sink_height := 1080 } 800 600
        false).1.display_rect.h ≤ max 1 600 ∧
     (gst_vr_sink_do_resize
        { initState with sink_width := 1920, sink_height := 1080 } 800 600
        false).1.display_rect.x =
       (max 1 800 - (gst_vr_sink_do_resize
          { initState with sink_width := 1920, sink_height := 1080 } 800 600
          false).1.display_rect.w) / 2 ∧
     (gst_vr_sink_do_resize
        { initState with sink_width := 1920, sink_height := 1080 } 800 600
        false).1.display_rect.y =
       (max 1 600 - (gst_vr_sink_do_resize
          { initState with sink_width := 1920, sink_height := 1080 } 800 600
          false).1.display_rect.h) / 2) :=
  ⟨C7_resize_display_rect.2.1 _ 800 600 rfl,
   C7_resize_display_rect.2.2 _ 800 600 rfl (by decide) (by decide)⟩

theorem configure_display_from_info_convert_views (s : GstVRSink)
    (w h pn pd : Int) :
    (configure_display_from_info s w h pn pd).1.convert_views =
      s.convert_views := by
  simp only [configure_display_from_info]
  repeat' split
  all_goals simp

theorem prepare_next_buffer_ok (s : GstVRSink) :
    (prepare_next_buffer s).2.2 = true := by
  simp only [prepare_next_buffer, pnb_emit, pnb_finalize]
  repeat' split
  all_goals simp

theorem prepare_next_buffer_passthrough (s : GstVRSink)
    (hin : s.input_buffer.isSome = true)
    (hfbf : s.in_mode ≠ MvMode.frameByFrame)
    (hcv : s.convert_views = none) :
    prepare_next_buffer s =
      ({ s with fresh := s.fresh + 1,
                next_tex := texOf (s.input_buffer.getD 0),
                next_buffer := some (s.input_buffer.getD 0),
                next_buffer2 := none,
                next_sync := some s.fresh },
        [Ev.unlock] ++ ([Ev.lock, Ev.unlock] ++
          ((s.next_buffer.toList ++ s.next_buffer2.toList ++
            s.next_sync.toList).map Ev.release) ++ [Ev.lock]),
        true) := by
  obtain ⟨b, hb⟩ := Option.isSome_iff_exists.mp hin
  simp only [prepare_next_buffer, hb, hcv, pnb_emit, pnb_finalize]
  simp [hfbf, hb, hcv]

theorem ensure_gl_setup_state (s : GstVRSink) :
    (_ensure_gl_setup s).1 =
      if s.context then s
      else { s with context := true, window_id := s.new_window_id } := by
  simp only [_ensure_gl_setup]
  repeat' split
  all_goals simp_all

theorem prepare_passthrough_fields (s : GstVRSink) (b : Nat) (fib : Bool)
    (hw : 1 ≤ s.sink_width) (hh : 1 ≤ s.sink_height)
    (hfbf : s.in_mode ≠ MvMode.frameByFrame)
    (homc : s.output_mode_changed = false)
    (hcv : s.convert_views = none) :
    (gst_vr_sink_prepare s b fib).2.2 = GstFlowReturn.ok ∧
    (gst_vr_sink_prepare s b fib).1.next_buffer = some b ∧
    (gst_vr_sink_prepare s b fib).1.next_buffer2 = none ∧
    (gst_vr_sink_prepare s b fib).1.next_sync = some s.fresh ∧
    (gst_vr_sink_prepare s b fib).1.next_tex = texOf b ∧
    (gst_vr_sink_prepare s b fib).1.input_buffer = some b ∧
    (gst_vr_sink_prepare s b fib).1.in_mode = s.in_mode ∧
    (gst_vr_sink_prepare s b fib).1.convert_views = none ∧
    (gst_vr_sink_prepare s b fib).1.output_mode_changed = false ∧
    (gst_vr_sink_prepare s b fib).1.sink_width = s.sink_width ∧
    (gst_vr_sink_prepare s b fib).1.sink_height = s.sink_height ∧
    (gst_vr_sink_prepare s b fib).1.redisplay_shader = s.redisplay_shader ∧
    (gst_vr_sink_prepare s b fib).1.fresh = s.fresh + 1 ∧
    (∀ p, s.next_buffer = some p →
      Ev.release p ∈ (gst_vr_sink_prepare s b fib).2.1) := by
  have hneg : ¬(s.sink_width < 1 ∨ s.sink_height < 1) := by omega
  simp only [gst_vr_sink_prepare, _ensure_gl_setup]
  rw [if_neg hneg]
  by_cases hctx : s.context = true <;>
    by_cases hwid : s.window_id ≠ s.new_window_id <;>
    simp [hctx, hwid, hfbf, homc, hcv, prepare_next_buffer_passthrough]
  all_goals (intro p hp; exact Or.inl hp)

/-- Claim C8: whenever the requested output multiview mode is None or the
input is already mono/left-only/right-only, update_output_format does not
instantiate the view converter and releases any existing one (gstvrsink.c
lines 908-933); and a prepare on a converter-free, stable configuration
passes the frame through unchanged — the `next` buffer is the very same
buffer object as the input (lines 1055-1058). -/
theorem C8_mono_passthrough :
    (∀ s : GstVRSink,
      (s.mview_output_mode = MvMode.noneMode ∨
        s.in_mode = MvMode.noneMode ∨ s.in_mode = MvMode.mono ∨
        s.in_mode = MvMode.left ∨ s.in_mode = MvMode.right) →
      (update_output_format s).1.convert_views = none) ∧
    (∀ (s : GstVRSink) (buf : Nat) (fib : Bool),
      s.convert_views = none →
      s.output_mode_changed = false →
      (s.in_mode = MvMode.noneMode ∨ s.in_mode = MvMode.mono ∨
        s.in_mode = MvMode.left ∨ s.in_mode = MvMode.right) →
      1 ≤ s.sink_width → 1 ≤ s.sink_height →
      ((gst_vr_sink_prepare s buf fib).1.next_buffer = some buf ∧
       (gst_vr_sink_prepare s buf fib).2.2 = GstFlowReturn.ok)) := by
  constructor
  · intro s hmono
    simp only [update_output_format]
    repeat' split
    all_goals
      simp_all [configure_display_from_info_convert_views, apply_ite]
  · intro s buf fib hcv homc hmono hw hh
    have hfbf : s.in_mode ≠ MvMode.frameByFrame := by
      rcases hmono with h | h | h | h <;> simp [h]
    have hp := prepare_passthrough_fields s buf fib hw hh hfbf homc hcv
    exact ⟨hp.2.1, hp.1⟩

/-- Claim C8, witness: side-by-side input with output mode None releases the
converter; a mono sink passes buffer 5 through as the next buffer. -/
theorem C8_witness :
    ((update_output_format
        { initState with in_mode := MvMode.sideBySide,
                         mview_output_mode := MvMode.noneMode,
                         convert_views := some gst_gl_view_convert_new
          }).1.convert_views = none) ∧
    ((gst_vr_sink_prepare
        { initState with sink_width := 100, sink_height := 100 } 5
        true).1.next_buffer = some 5 ∧
     (gst_vr_sink_prepare
        { initState with sink_width := 100, sink_height := 100 } 5
        true).2.2 = GstFlowReturn.ok) :=
  ⟨C8_mono_passthrough.1 _ (Or.inl rfl),
   C8_mono_passthrough.2 _ 5 true rfl rfl (Or.inr (Or.inl rfl)) (by decide)
     (by decide)⟩

theorem range_one_eq : List.range 1 = [0] := rfl

/-- Claim C5: with frame-by-frame multiview input, a prepare cycle carrying
only the first eye (first-in-bundle, no second buffer yet) leaves the
`next` slots untouched and succeeds (gstvrsink.c lines 1004-1012); once
both eye buffers are present, the conversion runs and the cycle produces a
converted output frame into `next` (lines 1024-1054, converter behavior
modelled from the spec). -/
theorem C5_frame_by_frame_pairing :
    (∀ (s : GstVRSink) (buf : Nat),
      s.in_mode = MvMode.frameByFrame →
      s.input_buffer2 = none →
      s.output_mode_changed = false →
      1 ≤ s.sink_width → 1 ≤ s.sink_height →
      ((gst_vr_sink_prepare s buf true).1.next_buffer = s.next_buffer ∧
       (gst_vr_sink_prepare s buf true).1.next_buffer2 = s.next_buffer2 ∧
       (gst_vr_sink_prepare s buf true).1.next_sync = s.next_sync ∧
       (gst_vr_sink_prepare s buf true).2.2 = GstFlowReturn.ok)) ∧
    (∀ (s : GstVRSink) (b1 b2 : Nat) (cv : ViewConvertState),
      s.in_mode = MvMode.frameByFrame →
      s.input_buffer = some b1 →
      s.convert_views = some cv →
      cv.in_mode = MvMode.frameByFrame →
      cv.out_mode = s.out_mode →
      cv.pending = [] → cv.ready = [] →
      s.out_mode ≠ MvMode.frameByFrame →
      s.output_mode_changed = false →
      1 ≤ s.sink_width → 1 ≤ s.sink_height →
      ((gst_vr_sink_prepare s b2 false).1.next_buffer = some s.fresh ∧
       (gst_vr_sink_prepare s b2 false).2.2 = GstFlowReturn.ok)) := by
  constructor
  · intro s buf hm hin2 homc hw hh
    have hneg : ¬(s.sink_width < 1 ∨ s.sink_height < 1) := by omega
    simp only [gst_vr_sink_prepare, _ensure_gl_setup]
    rw [if_neg hneg]
    by_cases hctx : s.context = true <;>
      by_cases hwid : s.window_id ≠ s.new_window_id <;>
      simp_all [prepare_next_buffer]
  · intro s b1 b2 cv hm hb1 hcv hcvin hcvout hpend hready hout homc hw hh
    have hneg : ¬(s.sink_width < 1 ∨ s.sink_height < 1) := by omega
    have hio : s.in_mode ≠ s.out_mode := by
      rw [hm]; exact fun hEq => hout hEq.symm
    simp only [gst_vr_sink_prepare, _ensure_gl_setup]
    rw [if_neg hneg]
    by_cases hctx : s.context = true <;>
      by_cases hwid : s.window_id ≠ s.new_window_id <;>
      simp_all [prepare_next_buffer, pnb_emit, pnb_finalize,
        gst_gl_view_convert_submit_input_buffer,
        gst_gl_view_convert_get_output, range_one_eq]

/-- Claim C5, witness: in frame-by-frame input mode a lone first-eye buffer
leaves `next` empty with GST_FLOW_OK; after the paired second buffer
arrives, the converted output frame (the sink-created buffer 100) lands in
`next`. -/
theorem C5_witness :
    ((gst_vr_sink_prepare
        { initState with in_mode := MvMode.frameByFrame,
                         sink_width := 100, sink_height := 100 } 5
        true).1.next_buffer =
      ({ initState with in_mode := MvMode.frameByFrame,
                        sink_width := 100, sink_height := 100 }
        : GstVRSink).next_buffer ∧
     (gst_vr_sink_prepare
        { initState with in_mode := MvMode.frameByFrame,
                         sink_width := 100, sink_height := 100 } 5
        true).1.next_buffer2 =
      ({ initState with in_mode := MvMode.frameByFrame,
                        sink_width := 100, sink_height := 100 }
        : GstVRSink).next_buffer2 ∧
     (gst_vr_sink_prepare
        { initState with in_mode := MvMode.frameByFrame,
                         sink_width := 100, sink_height := 100 } 5
        true).1.next_sync =
      ({ initState with in_mode := MvMode.frameByFrame,
                        sink_width := 100, sink_height := 100 }
        : GstVRSink).next_sync ∧
     (gst_vr_sink_prepare
        { initState with in_mode := MvMode.frameByFrame,
                         sink_width := 100, sink_height := 100 } 5
        true).2.2 = GstFlowReturn.ok) ∧
    ((gst_vr_sink_prepare
        { initState with in_mode := MvMode.frameByFrame,
                         out_mode := MvMode.sideBySide,
                         input_buffer := some 5,
                         convert_views := some
                           ⟨MvMode.frameByFrame, MvMode.sideBySide, [], []⟩,
                         sink_width := 100, sink_height := 100 } 6
        false).1.next_buffer = some 100 ∧
     (gst_vr_sink_prepare
        { initState with in_mode := MvMode.frameByFrame,
                         out_mode := MvMode.sideBySide,
                         input_buffer := some 5,
                         convert_views := some
                           ⟨MvMode.frameByFrame, MvMode.sideBySide, [], []⟩,
                         sink_width := 100, sink_height := 100 } 6
        false).2.2 = GstFlowReturn.ok) :=
  ⟨C5_frame_by_frame_pairing.1 _ 5 rfl rfl rfl (by decide) (by decide),
   C5_frame_by_frame_pairing.2 _ 5 6 _ rfl rfl rfl rfl rfl rfl rfl
     (by decide) rfl (by decide) (by decide)⟩

theorem prepare_mono_step (s : GstVRSink) (b : Nat) (h : monoPassthru s) :
    (gst_vr_sink_prepare s b true).1.next_buffer = some b ∧
      monoPassthru (gst_vr_sink_prepare s b true).1 ∧
      (gst_vr_sink_prepare s b true).1.redisplay_shader =
        s.redisplay_shader := by
  obtain ⟨hm, hcv, homc, hw, hh⟩ := h
  have hp := prepare_passthrough_fields s b true hw hh (by simp [hm]) homc hcv
  obtain ⟨hok, hnb, hnb2, hsy, htex, hib, him, hcv2, homc2, hsw, hsh2,
    hshad, hfr, hrel⟩ := hp
  refine ⟨hnb, ⟨?_, hcv2, homc2, ?_, ?_⟩, hshad⟩
  · rw [him, hm]
  · rw [hsw]; exact hw
  · rw [hsh2]; exact hh

theorem redisplay_promotes (s : GstVRSink) (ini : Bool) (nb : Nat)
    (hsh : s.redisplay_shader = true)
    (homc : s.output_mode_changed = false)
    (hnb : s.next_buffer = some nb) :
    (gst_vr_sink_redisplay s true ini).1.stored_buffer0 = some nb ∧
    (gst_vr_sink_redisplay s true ini).1.stored_buffer1 = s.next_buffer2 ∧
    (gst_vr_sink_redisplay s true ini).1.stored_sync = s.next_sync ∧
    (gst_vr_sink_redisplay s true ini).1.redisplay_texture = s.next_tex ∧
    (gst_vr_sink_redisplay s true ini).2.2 = true := by
  simp only [gst_vr_sink_redisplay]
  simp [hsh, homc, hnb]

/-- Claim C2: in the mono passthrough regime, for any sequence of submit
(prepare) calls with no intervening promotion, only the most recently
submitted frame is retained in the pending `next` slot; a second submit
drops a reference to the previously pending frame (after unlocking); and a
promotion after the sequence stores exactly the last submitted frame, so
only it can ever be drawn. -/
theorem C2_only_latest_pending_frame :
    (∀ (s : GstVRSink) (bs : List Nat) (b : Nat),
      monoPassthru s →
      (prepareSeq s (bs ++ [b])).next_buffer = some b) ∧
    (∀ (s : GstVRSink) (b1 b2 : Nat),
      monoPassthru s →
      Ev.release b1 ∈
        (gst_vr_sink_prepare (gst_vr_sink_prepare s b1 true).1 b2
          true).2.1) ∧
    (∀ (s : GstVRSink) (b1 b2 : Nat) (ini : Bool),
      monoPassthru s → s.redisplay_shader = true →
      (gst_vr_sink_redisplay
          (gst_vr_sink_prepare (gst_vr_sink_prepare s b1 true).1 b2 true).1
          true ini).1.stored_buffer0 = some b2) := by
  refine ⟨?_, ?_, ?_⟩
  · intro s bs b hmp
    induction bs generalizing s with
    | nil => simpa [prepareSeq] using (prepare_mono_step s b hmp).1
    | cons x t ih =>
      have hstep := prepare_mono_step s x hmp
      simpa [prepareSeq] using ih _ hstep.2.1
  · intro s b1 b2 hmp
    have h1 := prepare_mono_step s b1 hmp
    obtain ⟨hm1, hcv1, homc1, hw1, hh1⟩ := h1.2.1
    have hp := prepare_passthrough_fields (gst_vr_sink_prepare s b1 true).1
      b2 true hw1 hh1 (by simp [hm1]) homc1 hcv1
    exact hp.2.2.2.2.2.2.2.2.2.2.2.2.2 b1 h1.1
  · intro s b1 b2 ini hmp hsh
    have h1 := prepare_mono_step s b1 hmp
    have h2 := prepare_mono_step (gst_vr_sink_prepare s b1 true).1 b2 h1.2.1
    obtain ⟨hm2, hcv2, homc2, hw2, hh2⟩ := h2.2.1
    have hshp : (gst_vr_sink_prepare (gst_vr_sink_prepare s b1 true).1 b2
        true).1.redisplay_shader = true := by
      rw [h2.2.2, h1.2.2, hsh]
    exact (redisplay_promotes _ ini b2 hshp homc2 h2.1).1

/-- Claim C2, witness: submitting 1 then 2 then 3 to a negotiated mono sink
leaves frame 3 pending; the second of two submits releases the first frame;
and promotion after two submits stores the second frame. -/
theorem C2_witness :
    ((prepareSeq
        { initState with sink_width := 100, sink_height := 100 }
        ([1, 2] ++ [3])).next_buffer = some 3) ∧
    (Ev.release 1 ∈
      (gst_vr_sink_prepare
        (gst_vr_sink_prepare
          { initState with sink_width := 100, sink_height := 100 } 1
          true).1 2 true).2.1) ∧
    ((gst_vr_sink_redisplay
        (gst_vr_sink_prepare
          (gst_vr_sink_prepare
            { initState with sink_width := 100, sink_height := 100,
                             redisplay_shader := true } 1 true).1 2
          true).1 true false).1.stored_buffer0 = some 2) :=
  ⟨C2_only_latest_pending_frame.1 _ [1, 2] 3 (by decide),
   C2_only_latest_pending_frame.2.1 _ 1 2 (by decide),
   C2_only_latest_pending_frame.2.2 _ 1 2 false (by decide) rfl⟩

/-- Claim C3: on the GL-thread draw path, with the stored sync buffer
carrying fence `k` (every frame finalized into `next` got one), no
texture-sampling event (nonzero-texture bind or quad draw) ever occurs
before the GPU-timeline wait on `k` is issued; and in the default-draw case
(texture available, client did not handle the draw) the wait and the
sampling draw both occur, in that order (gstvrsink.c lines 1529-1531 wait
before the bind/draw at 1575-1579). -/
theorem C3_fence_wait_before_sample (s : GstVRSink) (cr cd : Bool) (k : Nat)
    (hsync : s.stored_sync = some k) :
    scanNoSample k (gst_vr_sink_on_draw s cr cd).2 = true ∧
    (s.redisplay_texture ≠ 0 → cd = false →
      Ev.waitFence k ∈ (gst_vr_sink_on_draw s cr cd).2 ∧
      Ev.drawElements ∈ (gst_vr_sink_on_draw s cr cd).2) := by
  constructor
  · simp only [gst_vr_sink_on_draw, gst_vr_sink_do_resize, hsync]
    repeat' split
    all_goals simp [scanNoSample, isSample, hsync]
  · intro hrt hcd
    simp only [gst_vr_sink_on_draw, gst_vr_sink_do_resize, hsync, hcd]
    rw [if_neg hrt]
    repeat' split
    all_goals simp_all [hsync]

/-- Claim C3, witness: a sink with stored sync fence 8 and redisplay
texture 5 issues the wait before any sampling, and the default draw both
waits and draws. -/
theorem C3_witness :
    (scanNoSample 8
        (gst_vr_sink_on_draw
          { initState with redisplay_texture := 5, stored_sync := some 8,
                           stored_buffer0 := some 9 } false false).2 =
      true) ∧
    ((5 : Nat) ≠ 0 → false = false →
      Ev.waitFence 8 ∈
        (gst_vr_sink_on_draw
          { initState with redisplay_texture := 5, stored_sync := some 8,
                           stored_buffer0 := some 9 } false false).2 ∧
      Ev.drawElements ∈
        (gst_vr_sink_on_draw
          { initState with redisplay_texture := 5, stored_sync := some 8,
                           stored_buffer0 := some 9 } false false).2) :=
  C3_fence_wait_before_sample _ false false 8 rfl

end VRSink
